import Mathlib

/-!
Verification of the purge-eligibility resolver in `jira_purge_query.py`
(AEADataEditor/editor-scripts).

The Python functions `get_mc_recommendation`, `get_revised_by_links`,
`check_issue_ready_for_purge`, the per-issue loop of `main`, and the
issue-key normalization of `main` are shallowly embedded below.  Python
strings are Lean `String`s; Python string methods (`lower`, `upper`,
`startswith`, `isdigit`, substring `in`, `replace(..., 1)`) are embedded
as explicit functions over the character list `String.data`.  The Jira
client is abstracted as a function `fetch : String → FetchOutcome`
covering the three outcomes of `jira.issue(...)` that the code
distinguishes: success, a `JIRAError` with a status code and text, and a
generic exception.  The recursion of `check_issue_ready_for_purge` is
embedded with an explicit fuel parameter; termination of the Python code
corresponds to the proved fact that the result is independent of the
fuel once the fuel exceeds the number of fetchable issue keys not yet
visited.  The mutable `_visited` set, shared across the recursion, is
threaded explicitly: each embedded call returns the updated visited list
together with the Python return value.
-/

namespace JiraPurge

set_option maxRecDepth 8192

/-! ### Embedded Python string primitives -/

/-- Python `needle in hay` test on character lists: is `needle` a
contiguous sublist of the second argument? -/
def containsSub (needle : List Char) : List Char → Bool
  | [] => needle.isEmpty
  | c :: rest => needle.isPrefixOf (c :: rest) || containsSub needle rest

/-- Python `s.lower()` (ASCII). -/
def pyLower (s : String) : String := ⟨s.data.map Char.toLower⟩

/-- Python `s.upper()` (ASCII). -/
def pyUpper (s : String) : String := ⟨s.data.map Char.toUpper⟩

/-- Python `needle in hay` substring test. -/
def pyContains (hay needle : String) : Bool :=
  containsSub needle.data hay.data

/-- Python `s.startswith(p)`. -/
def pyStartsWith (s p : String) : Bool :=
  p.data.isPrefixOf s.data

/-- Python `s.isdigit()` (ASCII digits; `False` on the empty string). -/
def pyIsDigit (s : String) : Bool :=
  !s.data.isEmpty && s.data.all Char.isDigit

/-- Replace the first occurrence of `pat` in the list, as in Python
`s.replace(old, new, 1)`. -/
def replaceFirstList (pat rep : List Char) : List Char → List Char
  | [] => if pat.isEmpty then rep else []
  | c :: rest =>
    if pat.isPrefixOf (c :: rest) then rep ++ (c :: rest).drop pat.length
    else c :: replaceFirstList pat rep rest

/-- Python `s.replace(old, new, 1)`. -/
def pyReplaceFirst (s pat rep : String) : String :=
  ⟨replaceFirstList pat.data rep.data s.data⟩

/-- Python truthiness of an optional string (`None` and `""` are falsy),
as used in `hasattr(item, f) and item.f`. -/
def truthy : Option String → Bool
  | some s => !s.data.isEmpty
  | none => false

/-! ### Data model: issues as fetched from Jira -/

/-- One entry of `history.items` in the issue changelog: carries
`item.field`, `item.fromString`, `item.toString`. -/
structure HistoryItem where
  field : String
  fromString : Option String
  toString : Option String
deriving DecidableEq, Repr

/-- One entry of `issue.fields.issuelinks`: `link.type.name`,
`link.type.inward` (the inward description, if present), and the keys of
`link.inwardIssue` / `link.outwardIssue` when those attributes exist. -/
structure IssueLink where
  typeName : String
  typeInward : Option String
  inwardIssue : Option String
  outwardIssue : Option String
deriving DecidableEq, Repr

/-- The parts of a fetched Jira issue that `check_issue_ready_for_purge`
reads: the key, `issue.fields.status.name`, the changelog histories
(each a list of items), the issue links, and the raw value of the
`MCRecommendationV2` custom field (`none` when absent). -/
structure Issue where
  key : String
  statusName : String
  changelogItems : List (List HistoryItem)
  issuelinks : List IssueLink
  mcRecommendationV2 : Option String
deriving DecidableEq, Repr

/-- Outcome of `jira.issue(issue_key, expand='changelog')`: success, a
`JIRAError` carrying `status_code` and `text`, or a generic exception
with a message. -/
inductive FetchOutcome where
  | ok (issue : Issue)
  | jiraError (status_code : Nat) (text : String)
  | exn (msg : String)
deriving DecidableEq, Repr

/-- The `message` component of the Python return tuple, which is either
a plain string or a list of strings. -/
inductive Message where
  | str (s : String)
  | list (items : List String)
deriving DecidableEq, Repr

/-- The Python return tuple
`(ready, current_status, mc_recommendation, message)` of
`check_issue_ready_for_purge`. -/
structure CheckResult where
  ready : Bool
  status : String
  mc_recommendation : String
  message : Message
deriving DecidableEq, Repr

/-! ### Embedded functions from `jira_purge_query.py` -/

/-- The constant `required_status_patterns` of
`check_issue_ready_for_purge`. -/
def required_status_patterns : List String :=
  ["pending openicpsr", "assess openicpsr", "pending publication"]

/-- Python `get_mc_recommendation`: always uses field name
`"MCRecommendationV2"`; the value falls back to `"N/A"` when the field
is missing or falsy. -/
def get_mc_recommendation (issue : Issue) : String × String :=
  ("MCRecommendationV2",
   match issue.mcRecommendationV2 with
   | some v => if v.data.isEmpty then ("N/A") else v
   | none => "N/A")

/-- Adding one status name to the `historical_statuses` set, embedded as
a duplicate-free list in insertion order. -/
def addStatus (statuses : List String) (s : String) : List String :=
  if s ∈ statuses then statuses else statuses ++ [s]

/-- Embeds `historical_statuses.add(item.f)` guarded by
`hasattr(item, f) and item.f`. -/
def addIfTruthy (statuses : List String) (o : Option String) : List String :=
  match o with
  | some s => if s.data.isEmpty then statuses else addStatus statuses s
  | none => statuses

/-- The `historical_statuses` set built by `check_issue_ready_for_purge`:
every changelog item with `field == 'status'` contributes its truthy
`fromString` and `toString`, and the current status is added last. -/
def historical_statuses (issue : Issue) : List String :=
  let fromHistory := issue.changelogItems.foldl
    (fun acc items => items.foldl
      (fun acc2 item =>
        if item.field = "status" then
          addIfTruthy (addIfTruthy acc2 item.fromString) item.toString
        else acc2) acc) []
  addStatus fromHistory issue.statusName

/-- Does one held status match some required pattern
(case-insensitive substring test, as in the inner pattern loop)? -/
def statusMatches (status : String) : Bool :=
  required_status_patterns.any (fun pattern => pyContains (pyLower status) pattern)

/-- The `matched_statuses` list of `check_issue_ready_for_purge`. -/
def matched_statuses (issue : Issue) : List String :=
  (historical_statuses issue).filter (fun status => statusMatches status)

/-- The test of the first branch of `get_revised_by_links`:
`hasattr(link.type, 'inward') and 'revised by' in link.type.inward.lower()`. -/
def isRevByLink (link : IssueLink) : Bool :=
  match link.typeInward with
  | some inw => pyContains (pyLower inw) "revised by"
  | none => false

/-- One loop iteration of `get_revised_by_links` over
`issue.fields.issuelinks`, updating
`(revised_by_issues, wrong_relates_links)`. -/
def linkStep (acc : List String × List String) (link : IssueLink) :
    List String × List String :=
  if isRevByLink link then
    match link.inwardIssue with
    | some k => (acc.1 ++ [k], acc.2)
    | none => acc
  else if pyLower link.typeName = "relates" then
    let wrong1 := match link.outwardIssue with
      | some k => acc.2 ++ [k]
      | none => acc.2
    let wrong2 := match link.inwardIssue with
      | some k => wrong1 ++ [k]
      | none => wrong1
    (acc.1, wrong2)
  else acc

/-- Python `get_revised_by_links`: returns
`(revised_by_issues, wrong_relates_links)`. -/
def get_revised_by_links (issue : Issue) : List String × List String :=
  issue.issuelinks.foldl linkStep ([], [])

/-- The `status_info` string of the eligible branch (line 249). -/
def eligibleStatusInfo (issue : Issue) : String :=
  "Current status: " ++ issue.statusName ++ "; Current " ++
    (get_mc_recommendation issue).1 ++ ": " ++ (get_mc_recommendation issue).2

/-- The `status_info` string of the failing branches (lines 280, 284),
which spell the label `"Current MCstatus"`. -/
def failStatusInfo (issue : Issue) : String :=
  "Current MCstatus: " ++ issue.statusName ++ "; Current " ++
    (get_mc_recommendation issue).1 ++ ": " ++ (get_mc_recommendation issue).2

/-- The `wrong_relates_note` appended to the failing messages. -/
def wrongRelatesNote (wrong_relates_links : List String) : String :=
  if wrong_relates_links.isEmpty then ("")
  else (" (Note: Found wrong \x27Relates\x27 links that should be \x27Revision\x27: ") ++
    String.intercalate (", ") wrong_relates_links ++ ")"

/-- The return value of the cycle guard (line 192). -/
def loopResult : CheckResult :=
  ⟨false, "LOOP", "N/A", Message.str ("Already checked (circular reference)")⟩

/-- A sentinel for fuel exhaustion; the Python code has no such state,
and it provably never arises once the fuel exceeds the number of
fetchable keys not yet visited. -/
def outOfFuelResult : CheckResult :=
  ⟨false, "OUT_OF_FUEL", "N/A", Message.str ("recursion fuel exhausted")⟩

/-- The return value of the eligible branch (line 251). -/
def eligibleResult (issue : Issue) : CheckResult :=
  ⟨true, issue.statusName, (get_mc_recommendation issue).2,
    Message.list [eligibleStatusInfo issue]⟩

/-- The return value when linked revisions exist but none passed
(line 282). -/
def neitherResult (issue : Issue) : CheckResult :=
  ⟨false, issue.statusName, (get_mc_recommendation issue).2,
    Message.str ("Neither this issue nor linked revisions passed through required statuses (" ++
      failStatusInfo issue ++ ")" ++ wrongRelatesNote (get_revised_by_links issue).2)⟩

/-- The return value when the issue never passed and has no revisions
(line 286). -/
def neverResult (issue : Issue) : CheckResult :=
  ⟨false, issue.statusName, (get_mc_recommendation issue).2,
    Message.str ("Never passed through required statuses (" ++
      failStatusInfo issue ++ ")" ++ wrongRelatesNote (get_revised_by_links issue).2)⟩

/-- The return value of the `JIRAError` handler for status code 404. -/
def notFoundResult : CheckResult :=
  ⟨false, "NOT_FOUND", "N/A", Message.str ("Issue does not exist")⟩

/-- The return value of the `JIRAError` handler for any other status
code. -/
def jiraErrorResult (text : String) : CheckResult :=
  ⟨false, "ERROR", "N/A", Message.str ("Jira error: " ++ text)⟩

/-- The return value of the generic exception handler. -/
def exnResult (msg : String) : CheckResult :=
  ⟨false, "ERROR", "N/A", Message.str ("Error retrieving issue: " ++ msg)⟩

/-- Lines 270–277: on a ready recursive result, prepend
`"via linked issue <key>"` to the message (converting a legacy string
message to a list). -/
def prependVia (linked_key : String) (r : CheckResult) : CheckResult :=
  match r.message with
  | Message.list items =>
      ⟨true, r.status, r.mc_recommendation,
        Message.list (("via linked issue " ++ linked_key) :: items)⟩
  | Message.str m =>
      ⟨true, r.status, r.mc_recommendation,
        Message.list ["via linked issue " ++ linked_key, m]⟩

/-- The `for linked_key in revised_by_issues` loop (lines 262–277):
run `recur` on each linked key in order, threading the visited list
(which Python shares by mutation); return the first ready result after
`prependVia`, or `none` if no linked issue passed. -/
def checkLinks (recur : String → List String → CheckResult × List String) :
    List String → List String → Option CheckResult × List String
  | [], visited => (none, visited)
  | linked_key :: rest, visited =>
    match recur linked_key visited with
    | (r, visited') =>
      if r.ready then (some (prependVia linked_key r), visited')
      else checkLinks recur rest visited'

/-- Combining the outcome of the link loop (lines 262–282): a ready
linked result is returned as-is (it was already transformed by
`prependVia`); if no linked issue passed, the `"Neither ..."` failure is
returned with the visited set as mutated by the loop. -/
def linksOutcome (issue : Issue) :
    Option CheckResult × List String → CheckResult × List String
  | (some r, visited2) => (r, visited2)
  | (none, visited2) => (neitherResult issue, visited2)

/-- One unfolding of `check_issue_ready_for_purge`, with the recursive
occurrence abstracted as `recur`.  Mirrors lines 187–294: cycle guard,
`_visited.add`, fetch, status matching, link recursion, and the three
exception branches. -/
def checkF (recur : String → List String → CheckResult × List String)
    (fetch : String → FetchOutcome) (issue_key : String) (visited : List String) :
    CheckResult × List String :=
  if issue_key ∈ visited then (loopResult, visited)
  else
    let visited1 := issue_key :: visited
    match fetch issue_key with
    | FetchOutcome.ok issue =>
      if matched_statuses issue ≠ [] then (eligibleResult issue, visited1)
      else
        let links := get_revised_by_links issue
        if links.1 ≠ [] then
          linksOutcome issue (checkLinks recur links.1 visited1)
        else (neverResult issue, visited1)
    | FetchOutcome.jiraError status_code text =>
      if status_code = 404 then (notFoundResult, visited1)
      else (jiraErrorResult text, visited1)
    | FetchOutcome.exn msg => (exnResult msg, visited1)

/-- Python `check_issue_ready_for_purge`, fuel-indexed.  `check fetch fuel key
visited` returns the Python return tuple together with the final state
of the mutated `_visited` set. -/
def check (fetch : String → FetchOutcome) : Nat → String → List String →
    CheckResult × List String
  | 0, _, visited => (outOfFuelResult, visited)
  | fuel + 1, issue_key, visited => checkF (check fetch fuel) fetch issue_key visited

/-! ### The batch driver `main` (lines 363–408) -/

/-- The issue-key normalization of `main` (lines 366–374): uppercase;
a purely numeric key gets the `AEAREP-` prefix; a key starting with
`AEAREP` but not `AEAREP-` has the dash inserted by
`replace("AEAREP", "AEAREP-", 1)`. -/
def normalizeKey (issue_key : String) : String :=
  let normalized_key := pyUpper issue_key
  if pyIsDigit normalized_key then ("AEAREP-" ++ normalized_key)
  else if !pyStartsWith normalized_key ("AEAREP-") &&
          pyStartsWith normalized_key ("AEAREP") then
    pyReplaceFirst normalized_key ("AEAREP") ("AEAREP-")
  else normalized_key

/-- The per-issue loop of `main`: each (normalized) root key is resolved
by a fresh call `check_issue_ready_for_purge(jira, normalized_key, ...)`
whose `_visited` defaults to a new empty set. -/
def mainChecks (fetch : String → FetchOutcome) (fuel : Nat)
    (issue_keys : List String) : List (String × CheckResult) :=
  issue_keys.map (fun issue_key =>
    let normalized_key := normalizeKey issue_key
    (normalized_key, (check fetch fuel normalized_key []).1))

/-- The `all_ready` accumulator of `main`: starts `True`, and is turned
`False` by any issue that is not ready. -/
def all_ready (results : List (String × CheckResult)) : Bool :=
  results.foldl (fun acc r => acc && r.2.ready) true

/-- The exit code of `main`: `sys.exit(0 if all_ready else 1)`. -/
def mainExitCode (fetch : String → FetchOutcome) (fuel : Nat)
    (issue_keys : List String) : Nat :=
  if all_ready (mainChecks fetch fuel issue_keys) then 0 else 1

/-! ### A store-backed fetch function for concrete instances -/

/-- A Jira instance holding a finite list of issues: fetching a present
key succeeds and any other key raises a 404 `JIRAError`. -/
def fetchFromStore (store : List Issue) (issue_key : String) : FetchOutcome :=
  match store.find? (fun issue => issue.key == issue_key) with
  | some issue => FetchOutcome.ok issue
  | none => FetchOutcome.jiraError 404 "Issue Does Not Exist"

/-- The keys that `check_issue_ready_for_purge` recurses on, read off
the links directly: the `inwardIssue` keys of the links whose inward
description contains `"revised by"`. -/
def revisedByKeys (links : List IssueLink) : List String :=
  links.filterMap (fun link => if isRevByLink link then link.inwardIssue else none)

/-- The keys recorded as wrong `Relates` links, read off the links
directly: for each non-revision link whose type name is `relates`
(case-insensitively), the outward issue key followed by the inward
issue key. -/
def relatesKeys (links : List IssueLink) : List String :=
  links.flatMap (fun link =>
    if !isRevByLink link && pyLower link.typeName == "relates" then
      link.outwardIssue.toList ++ link.inwardIssue.toList
    else [])

/-- The number of keys that a fetch over `keys` could still newly visit:
the card of the set difference between the key set and the visited
set.  Bounds the recursion of `check`. -/
def remainingKeys (keys visited : List String) : Nat :=
  (keys.toFinset \ visited.toFinset).card

/-- The first character of a message, used to separate the disjoint
message families of the resolver (`N`ever/`N`either for ineligible,
`A`lready for the cycle guard, `I`ssue/`J`ira/`E`rror for fetch
failures). -/
def msgHead : Message → Option Char
  | Message.str s => s.data.head?
  | Message.list _ => none

/-! ### Concrete instances -/

/-- An issue that is currently Done and passed through Pending
Publication. -/
def issueDonePassed : Issue :=
  ⟨"AEAREP-1", "Done",
   [[⟨"status", some ("Submitted"), some ("Pending Publication")⟩,
     ⟨"status", some ("Pending Publication"), some ("Done")⟩]],
   [], none⟩

/-- An issue that never held a required status and is revised by
`AEAREP-2`. -/
def issueRevisedOne : Issue :=
  ⟨"AEAREP-1", "Done",
   [[⟨"status", some ("Submitted"), some ("Done")⟩]],
   [⟨"Revision", some ("is revised by"), some ("AEAREP-2"), none⟩], none⟩

/-- An issue with key `AEAREP-2` that passed through Pending
Publication. -/
def issueRevisionPassed : Issue :=
  ⟨"AEAREP-2", "Done",
   [[⟨"status", some ("Pending Publication"), some ("Done")⟩]],
   [], none⟩

/-- An issue with key `AEAREP-2` that never held a required status and
is revised by `AEAREP-1`, closing a cycle with `issueRevisedOne`. -/
def issueRevisionCycle : Issue :=
  ⟨"AEAREP-2", "Done",
   [[⟨"status", some ("Submitted"), some ("Done")⟩]],
   [⟨"Revision", some ("is revised by"), some ("AEAREP-1"), none⟩], none⟩

/-- An issue that never held a required status and has only a
`Relates` link to `AEAREP-9`. -/
def issueRelatesOnly : Issue :=
  ⟨"AEAREP-1", "Done",
   [[⟨"status", some ("Submitted"), some ("Done")⟩]],
   [⟨"Relates", some ("relates to"), none, some ("AEAREP-9")⟩], none⟩

/-- An issue with key `AEAREP-9` that passed through Pending
Publication. -/
def issueRelatedPassed : Issue :=
  ⟨"AEAREP-9", "Done",
   [[⟨"status", some ("Submitted"), some ("Pending Publication")⟩]],
   [], none⟩

/-- A fetch function exhibiting all three retrieval failures next to a
successful key. -/
def fetchMixed : String → FetchOutcome := fun k =>
  if k = "AEAREP-404" then FetchOutcome.jiraError 404 "not found"
  else if k = "AEAREP-500" then FetchOutcome.jiraError 500 "auth failure"
  else if k = "AEAREP-900" then FetchOutcome.exn ("network timeout")
  else FetchOutcome.ok issueDonePassed

example :
    (check (fetchFromStore [issueDonePassed]) 5 "AEAREP-1" []).1 =
      ⟨true, "Done", "N/A",
        Message.list ["Current status: Done; Current MCRecommendationV2: N/A"]⟩ := by
  decide

example :
    (check (fetchFromStore [issueRevisedOne, issueRevisionPassed]) 5 "AEAREP-1" []).1 =
      ⟨true, "Done", "N/A",
        Message.list ["via linked issue AEAREP-2",
          "Current status: Done; Current MCRecommendationV2: N/A"]⟩ := by
  decide

example :
    check (fetchFromStore [issueRevisedOne, issueRevisionCycle]) 3 "AEAREP-1" [] =
      check (fetchFromStore [issueRevisedOne, issueRevisionCycle]) 10 "AEAREP-1" [] := by
  decide

example :
    (check (fetchFromStore [issueRevisedOne, issueRevisionCycle]) 5 "AEAREP-1" []).1 =
      neitherResult issueRevisedOne := by
  decide

example :
    (check (fetchFromStore [issueRelatesOnly, issueRelatedPassed]) 5 "AEAREP-1" []).1 =
      neverResult issueRelatesOnly := by
  decide

example :
    (neverResult issueRelatesOnly).message =
      Message.str ("Never passed through required statuses (Current MCstatus: Done; Current MCRecommendationV2: N/A) (Note: Found wrong \x27Relates\x27 links that should be \x27Revision\x27: AEAREP-9)") := by
  decide

example : normalizeKey ("aearep-123") = "AEAREP-123" := by decide

example : normalizeKey ("123") = "AEAREP-123" := by decide

example : normalizeKey ("aearep123") = "AEAREP-123" := by decide

/-! ### Visited-set monotonicity: the `_visited` set only grows -/

theorem checkLinks_visited_sub
    (recur : String → List String → CheckResult × List String)
    (hm : ∀ k v, v ⊆ (recur k v).2) :
    ∀ ks v, v ⊆ (checkLinks recur ks v).2 := by
  intro ks
  induction ks with
  | nil => intro v; simp [checkLinks]
  | cons k rest ih =>
    intro v
    have hk := hm k v
    rcases h : recur k v with ⟨r, v'⟩
    rw [h] at hk
    by_cases hr : r.ready = true
    · simp [checkLinks, h, hr]; exact hk
    · simp only [checkLinks, h, Bool.not_eq_true] at hr ⊢
      rw [hr]
      simp only [Bool.false_eq_true, if_false]
      exact List.Subset.trans hk (ih v')

theorem linksOutcome_sub (issue : Issue) {v : List String}
    (p : Option CheckResult × List String) (h : v ⊆ p.2) :
    v ⊆ (linksOutcome issue p).2 := by
  rcases p with ⟨or, v2⟩
  cases or <;> simpa [linksOutcome] using h

theorem checkF_visited_sub
    (recur : String → List String → CheckResult × List String)
    (hm : ∀ k v, v ⊆ (recur k v).2)
    (fetch : String → FetchOutcome) (issue_key : String) (visited : List String) :
    visited ⊆ (checkF recur fetch issue_key visited).2 := by
  have hcons : visited ⊆ issue_key :: visited := List.subset_cons_self _ _
  simp only [checkF]
  split
  · exact List.Subset.refl _
  · split
    · split
      · exact hcons
      · split
        · exact List.Subset.trans hcons
            (linksOutcome_sub _ _ (checkLinks_visited_sub recur hm _ _))
        · exact hcons
    · split
      · exact hcons
      · exact hcons
    · exact hcons

theorem check_visited_sub (fetch : String → FetchOutcome) :
    ∀ (fuel : Nat) (issue_key : String) (visited : List String),
      visited ⊆ (check fetch fuel issue_key visited).2 := by
  intro fuel
  induction fuel with
  | zero => intro k v; simp [check]
  | succ n ih =>
    intro k v
    exact checkF_visited_sub (check fetch n) (fun k' v' => ih k' v') fetch k v

/-! ### Congruence: the link loop only depends on the recursion on
visited supersets -/

theorem checkLinks_congr (f g : String → List String → CheckResult × List String)
    (v₀ : List String)
    (hmf : ∀ k v, v ⊆ (f k v).2)
    (hfg : ∀ k v, v₀ ⊆ v → f k v = g k v) :
    ∀ ks v, v₀ ⊆ v → checkLinks f ks v = checkLinks g ks v := by
  intro ks
  induction ks with
  | nil => intro v _; rfl
  | cons k rest ih =>
    intro v hv
    have h1 : f k v = g k v := hfg k v hv
    rcases hf : f k v with ⟨r, v'⟩
    have hg : g k v = (r, v') := by rw [← h1, hf]
    have hv' : v₀ ⊆ v' := by
      have hs := hmf k v
      rw [hf] at hs
      exact List.Subset.trans hv hs
    by_cases hr : r.ready = true
    · simp [checkLinks, hf, hg, hr]
    · rw [Bool.not_eq_true] at hr
      simp only [checkLinks, hf, hg, hr, Bool.false_eq_true, if_false]
      exact ih v' hv'

/-! ### Size arguments for termination -/

theorem remainingKeys_le_of_sub (keys : List String) {v v' : List String}
    (h : v ⊆ v') : remainingKeys keys v' ≤ remainingKeys keys v := by
  apply Finset.card_le_card
  apply Finset.sdiff_subset_sdiff (le_refl _)
  intro a ha
  rw [List.mem_toFinset] at ha ⊢
  exact h ha

theorem remainingKeys_cons_lt (keys : List String) {v : List String} {k : String}
    (hk : k ∈ keys) (hv : k ∉ v) :
    remainingKeys keys (k :: v) < remainingKeys keys v := by
  apply Finset.card_lt_card
  rw [Finset.ssubset_iff_of_subset]
  · refine ⟨k, ?_, ?_⟩
    · simp [hk, hv]
    · simp
  · apply Finset.sdiff_subset_sdiff (le_refl _)
    intro a ha
    rw [List.mem_toFinset] at ha ⊢
    exact List.mem_cons_of_mem _ ha

/-! ### Fuel stabilization: once the fuel exceeds the number of
fetchable keys not yet visited, one more unit of fuel does not change
the result.  This is the termination argument of the Python recursion:
its depth is bounded by the number of distinct fetchable issues. -/

theorem check_succ_stab (fetch : String → FetchOutcome) (keys : List String)
    (hcover : ∀ k issue, fetch k = FetchOutcome.ok issue → k ∈ keys) :
    ∀ (fuel : Nat) (issue_key : String) (visited : List String),
      remainingKeys keys visited ≤ fuel →
      check fetch (fuel + 1) issue_key visited =
        check fetch (fuel + 2) issue_key visited := by
  intro fuel
  induction fuel with
  | zero =>
    intro key v hm
    show checkF (check fetch 0) fetch key v = checkF (check fetch 1) fetch key v
    simp only [checkF]
    split
    · rfl
    · rename_i hv
      split
      · rename_i issue heq
        split
        · rfl
        · split
          · have hk : key ∈ keys := hcover key issue heq
            have hlt := remainingKeys_cons_lt keys hk hv
            omega
          · rfl
      · rfl
      · rfl
  | succ n ih =>
    intro key v hm
    show checkF (check fetch (n + 1)) fetch key v =
      checkF (check fetch (n + 2)) fetch key v
    simp only [checkF]
    split
    · rfl
    · rename_i hv
      split
      · rename_i issue heq
        split
        · rfl
        · split
          · have hk : key ∈ keys := hcover key issue heq
            have hlt := remainingKeys_cons_lt keys hk hv
            congr 1
            apply checkLinks_congr _ _ (key :: v)
              (fun k' v' => check_visited_sub fetch (n + 1) k' v')
              (fun k' v' hsub => ?_) _ _ (List.Subset.refl _)
            apply ih
            have := remainingKeys_le_of_sub keys hsub
            omega
          · rfl
      · rfl
      · rfl

theorem check_fuel_add (fetch : String → FetchOutcome) (keys : List String)
    (hcover : ∀ k issue, fetch k = FetchOutcome.ok issue → k ∈ keys) :
    ∀ (d : Nat) (issue_key : String) (visited : List String),
      check fetch (remainingKeys keys visited + 1 + d) issue_key visited =
        check fetch (remainingKeys keys visited + 1) issue_key visited := by
  intro d
  induction d with
  | zero => intro key v; rfl
  | succ n ihd =>
    intro key v
    have h1 : remainingKeys keys v + 1 + (n + 1) = remainingKeys keys v + n + 2 := by
      omega
    have h2 := check_succ_stab fetch keys hcover (remainingKeys keys v + n) key v
      (by omega)
    have h3 : remainingKeys keys v + 1 + n = remainingKeys keys v + n + 1 := by
      omega
    rw [h1, ← h2, ← h3, ihd key v]

theorem check_fuel_stable (fetch : String → FetchOutcome) (keys : List String)
    (hcover : ∀ k issue, fetch k = FetchOutcome.ok issue → k ∈ keys)
    (fuel₁ fuel₂ : Nat) (issue_key : String) (visited : List String)
    (h1 : remainingKeys keys visited < fuel₁)
    (h2 : remainingKeys keys visited < fuel₂) :
    check fetch fuel₁ issue_key visited = check fetch fuel₂ issue_key visited := by
  have e1 : fuel₁ = remainingKeys keys visited + 1 +
      (fuel₁ - (remainingKeys keys visited + 1)) := by omega
  have e2 : fuel₂ = remainingKeys keys visited + 1 +
      (fuel₂ - (remainingKeys keys visited + 1)) := by omega
  rw [e1, check_fuel_add fetch keys hcover _ issue_key visited,
      e2, check_fuel_add fetch keys hcover _ issue_key visited]

/-! ### Nodup preservation: keys are added to `_visited` at most once -/

theorem linksOutcome_nodup (issue : Issue) (p : Option CheckResult × List String)
    (h : p.2.Nodup) : ((linksOutcome issue p).2).Nodup := by
  rcases p with ⟨or, v2⟩
  cases or <;> simpa [linksOutcome] using h

theorem checkLinks_nodup (recur : String → List String → CheckResult × List String)
    (hnd : ∀ k v, v.Nodup → ((recur k v).2).Nodup) :
    ∀ ks v, v.Nodup → ((checkLinks recur ks v).2).Nodup := by
  intro ks
  induction ks with
  | nil => intro v hv; simpa [checkLinks] using hv
  | cons k rest ih =>
    intro v hv
    have hk := hnd k v hv
    rcases hf : recur k v with ⟨r, v'⟩
    rw [hf] at hk
    by_cases hr : r.ready = true
    · simpa [checkLinks, hf, hr] using hk
    · rw [Bool.not_eq_true] at hr
      simp only [checkLinks, hf, hr, Bool.false_eq_true, if_false]
      exact ih v' hk

theorem checkF_nodup (recur : String → List String → CheckResult × List String)
    (hnd : ∀ k v, v.Nodup → ((recur k v).2).Nodup)
    (fetch : String → FetchOutcome) (issue_key : String) (visited : List String)
    (h : visited.Nodup) : ((checkF recur fetch issue_key visited).2).Nodup := by
  simp only [checkF]
  split
  · exact h
  · rename_i hv
    have hcons : (issue_key :: visited).Nodup := List.nodup_cons.mpr ⟨hv, h⟩
    split
    · split
      · exact hcons
      · split
        · exact linksOutcome_nodup _ _ (checkLinks_nodup recur hnd _ _ hcons)
        · exact hcons
    · split
      · exact hcons
      · exact hcons
    · exact hcons

theorem check_nodup (fetch : String → FetchOutcome) :
    ∀ (fuel : Nat) (issue_key : String) (visited : List String),
      visited.Nodup → ((check fetch fuel issue_key visited).2).Nodup := by
  intro fuel
  induction fuel with
  | zero => intro k v h; simpa [check] using h
  | succ n ih =>
    intro k v h
    exact checkF_nodup (check fetch n) (fun k' v' => ih k' v') fetch k v h

/-! ### Store-backed fetching only succeeds on stored keys -/

theorem fetchFromStore_ok_mem (store : List Issue) (k : String) (issue : Issue)
    (h : fetchFromStore store k = FetchOutcome.ok issue) :
    k ∈ store.map Issue.key := by
  unfold fetchFromStore at h
  cases hf : store.find? (fun i => i.key == k) with
  | none => rw [hf] at h; cases h
  | some i =>
    rw [hf] at h
    have hmem := List.mem_of_find?_eq_some hf
    have hpred := List.find?_some hf
    simp only [beq_iff_eq] at hpred
    exact hpred ▸ List.mem_map_of_mem Issue.key hmem

/-! ### Facts about the link loop results -/

theorem prependVia_ready (linked_key : String) (r : CheckResult) :
    (prependVia linked_key r).ready = true := by
  cases hm : r.message <;> simp [prependVia, hm]

theorem checkLinks_some_ready (recur : String → List String → CheckResult × List String) :
    ∀ (ks v : List String) (r : CheckResult) (v' : List String),
      checkLinks recur ks v = (some r, v') → r.ready = true := by
  intro ks
  induction ks with
  | nil => intro v r v' h; simp [checkLinks] at h
  | cons k rest ih =>
    intro v r v' h
    rcases hf : recur k v with ⟨r0, v0⟩
    rw [checkLinks, hf] at h
    by_cases hr : r0.ready = true
    · simp only [hr, if_true, if_pos] at h
      have : prependVia k r0 = r := by
        have := congrArg Prod.fst h
        simpa using this
      rw [← this]
      exact prependVia_ready k r0
    · rw [Bool.not_eq_true] at hr
      simp only [hr, Bool.false_eq_true, if_false] at h
      exact ih v0 r v' h

/-! ### First characters of the message families -/

theorem strHeadAppend (a b : String) (c : Char) (h : a.data.head? = some c) :
    (a ++ b).data.head? = some c := by
  rw [String.data_append]
  cases ha : a.data with
  | nil => rw [ha] at h; cases h
  | cons x xs => rw [ha] at h; simpa using h

theorem msgHead_neither (issue : Issue) :
    msgHead (neitherResult issue).message = some 'N' := by
  show (("Neither this issue nor linked revisions passed through required statuses (" ++
    failStatusInfo issue ++ ")" ++
    wrongRelatesNote (get_revised_by_links issue).2).data).head? = some 'N'
  apply strHeadAppend
  apply strHeadAppend
  apply strHeadAppend
  rfl

theorem msgHead_never (issue : Issue) :
    msgHead (neverResult issue).message = some 'N' := by
  show (("Never passed through required statuses (" ++
    failStatusInfo issue ++ ")" ++
    wrongRelatesNote (get_revised_by_links issue).2).data).head? = some 'N'
  apply strHeadAppend
  apply strHeadAppend
  apply strHeadAppend
  rfl

/-! ### Characterization of `get_revised_by_links` -/

theorem get_revised_by_links_foldl (links : List IssueLink) :
    ∀ acc : List String × List String,
      links.foldl linkStep acc =
        (acc.1 ++ revisedByKeys links, acc.2 ++ relatesKeys links) := by
  induction links with
  | nil => intro acc; simp [revisedByKeys, relatesKeys]
  | cons link rest ih =>
    intro acc
    rw [List.foldl_cons, ih]
    by_cases hrb : isRevByLink link = true
    · cases hio : link.inwardIssue with
      | some k =>
        simp [linkStep, hrb, hio, revisedByKeys, relatesKeys,
          List.filterMap_cons, List.flatMap_cons]
      | none =>
        simp [linkStep, hrb, hio, revisedByKeys, relatesKeys,
          List.filterMap_cons, List.flatMap_cons]
    · rw [Bool.not_eq_true] at hrb
      by_cases hrel : pyLower link.typeName = "relates"
      · cases hoo : link.outwardIssue with
        | some ko =>
          cases hio : link.inwardIssue with
          | some ki =>
            simp [linkStep, hrb, hrel, hoo, hio, revisedByKeys, relatesKeys,
              List.filterMap_cons, List.flatMap_cons]
          | none =>
            simp [linkStep, hrb, hrel, hoo, hio, revisedByKeys, relatesKeys,
              List.filterMap_cons, List.flatMap_cons]
        | none =>
          cases hio : link.inwardIssue with
          | some ki =>
            simp [linkStep, hrb, hrel, hoo, hio, revisedByKeys, relatesKeys,
              List.filterMap_cons, List.flatMap_cons]
          | none =>
            simp [linkStep, hrb, hrel, hoo, hio, revisedByKeys, relatesKeys,
              List.filterMap_cons, List.flatMap_cons]
      · simp [linkStep, hrb, hrel, revisedByKeys, relatesKeys,
          List.filterMap_cons, List.flatMap_cons]

theorem get_revised_by_links_eq (issue : Issue) :
    get_revised_by_links issue =
      (revisedByKeys issue.issuelinks, relatesKeys issue.issuelinks) := by
  unfold get_revised_by_links
  rw [get_revised_by_links_foldl]
  simp

theorem revisedByKeys_eq_nil (links : List IssueLink)
    (h : ∀ link ∈ links, isRevByLink link = false) :
    revisedByKeys links = [] := by
  induction links with
  | nil => rfl
  | cons link rest ih =>
    have h0 := h link (List.mem_cons_self _ _)
    rw [revisedByKeys, List.filterMap_cons, h0]
    simp only [Bool.false_eq_true, if_false]
    exact ih (fun l hl => h l (List.mem_cons_of_mem _ hl))

/-! ### Claim C1 -/

/-- Claim C1, counterexample.  The issue `issueDonePassed` is currently
`Done` and its history contains the required status
`Pending Publication`, which matches a pattern.  The resolver does
return an eligible result immediately, but no component of that result
equals (or even contains) the matching historical status string
`Pending Publication`: the result carries the current status `Done` and
a status-info line built from the current status only.  So the claim
that the result carries `matchedStatus` equal to the matching
historical status is false on this input. -/
theorem C1_counterexample :
    statusMatches ("Pending Publication") = true ∧
    "Pending Publication" ∈ historical_statuses issueDonePassed ∧
    (check (fetchFromStore [issueDonePassed]) 5 "AEAREP-1" []).1 =
      ⟨true, "Done", "N/A",
        Message.list ["Current status: Done; Current MCRecommendationV2: N/A"]⟩ ∧
    (check (fetchFromStore [issueDonePassed]) 5 "AEAREP-1" []).1.status ≠
      "Pending Publication" ∧
    (check (fetchFromStore [issueDonePassed]) 5 "AEAREP-1" []).1.mc_recommendation ≠
      "Pending Publication" ∧
    pyContains ("Current status: Done; Current MCRecommendationV2: N/A")
      ("Pending Publication") = false := by
  decide

/-- Claim C1 (amended): for every issue whose held-status set contains a
status that case-insensitively contains one of the required patterns,
`check` returns an eligible result immediately, without recursing into
any links: the result is fully determined by the fetched issue alone
(any fetch function agreeing on this key gives the same result), the
fuel beyond one step is irrelevant, and the visited set grows by exactly
this key.  The result carries the issue's current status and MC
recommendation; the matching historical status itself is not part of the
returned tuple. -/
theorem C1_eligible_immediate (fetch : String → FetchOutcome) (fuel : Nat)
    (issue_key : String) (visited : List String) (issue : Issue)
    (hv : issue_key ∉ visited)
    (hf : fetch issue_key = FetchOutcome.ok issue)
    (hm : matched_statuses issue ≠ []) :
    check fetch (fuel + 1) issue_key visited =
      (eligibleResult issue, issue_key :: visited) := by
  show checkF (check fetch fuel) fetch issue_key visited = _
  simp [checkF, hf, hv, hm]

/-- Witness for `C1_eligible_immediate` at a concrete store. -/
theorem C1_eligible_immediate_witness :
    check (fetchFromStore [issueDonePassed]) 7 "AEAREP-1" [] =
      (eligibleResult issueDonePassed, ["AEAREP-1"]) :=
  C1_eligible_immediate (fetchFromStore [issueDonePassed]) 6 "AEAREP-1" []
    issueDonePassed (by decide) (by decide) (by decide)

/-! ### Claim C2 -/

/-- Claim C2, counterexample.  `issueRevisedOne` (key `AEAREP-1`) never
held a required status and is revised by `issueRevisionPassed` (key
`AEAREP-2`), which is eligible.  The claim asserts
`viaChain == [A, B]`, that is, the chain starts with the resolved
issue's own identifier.  The code instead returns the message list
`["via linked issue AEAREP-2", <status summary of AEAREP-2>]`: the
successor's key is recorded, but `AEAREP-1` appears nowhere in the
returned tuple. -/
theorem C2_counterexample :
    (check (fetchFromStore [issueRevisedOne, issueRevisionPassed]) 5 "AEAREP-1" []).1 =
      ⟨true, "Done", "N/A",
        Message.list ["via linked issue AEAREP-2",
          "Current status: Done; Current MCRecommendationV2: N/A"]⟩ ∧
    (check (fetchFromStore [issueRevisedOne, issueRevisionPassed]) 5 "AEAREP-1" []).1.message ≠
      Message.list ["AEAREP-1", "AEAREP-2"] ∧
    pyContains ("via linked issue AEAREP-2") ("AEAREP-1") = false ∧
    pyContains ("Current status: Done; Current MCRecommendationV2: N/A") ("AEAREP-1") = false := by
  decide

/-- Claim C2 (amended): if issue A never held a required status and its
first REVISED_BY successor B resolves to an eligible result `r`, then
`resolve(A)` returns `r` with the marker `"via linked issue B"`
prepended to `r`'s message list (`prependVia`).  The chain therefore
records the successors along the traversal path, but not A's own
identifier, and its base element is the eligible issue's status summary
rather than an identifier. -/
theorem C2_via_chain (fetch : String → FetchOutcome) (fuel : Nat)
    (issue_key : String) (visited : List String) (issue : Issue)
    (linked_key : String) (rest : List String) (r : CheckResult) (v' : List String)
    (hv : issue_key ∉ visited)
    (hf : fetch issue_key = FetchOutcome.ok issue)
    (hm : matched_statuses issue = [])
    (hl : (get_revised_by_links issue).1 = linked_key :: rest)
    (hrec : check fetch fuel linked_key (issue_key :: visited) = (r, v'))
    (hready : r.ready = true) :
    check fetch (fuel + 1) issue_key visited = (prependVia linked_key r, v') := by
  show checkF (check fetch fuel) fetch issue_key visited = _
  simp [checkF, hf, hv, hm, hl, checkLinks, hrec, hready, linksOutcome]

/-- Witness for `C2_via_chain` at the two-issue store: the chain is
`["via linked issue AEAREP-2", <status summary>]`. -/
theorem C2_via_chain_witness :
    check (fetchFromStore [issueRevisedOne, issueRevisionPassed]) 5 "AEAREP-1" [] =
      (prependVia ("AEAREP-2") (eligibleResult issueRevisionPassed),
       ["AEAREP-2", "AEAREP-1"]) :=
  C2_via_chain (fetchFromStore [issueRevisedOne, issueRevisionPassed]) 4
    "AEAREP-1" [] issueRevisedOne ("AEAREP-2") []
    (eligibleResult issueRevisionPassed) ["AEAREP-2", "AEAREP-1"]
    (by decide) (by decide) (by decide) (by decide) (by decide) (by decide)

/-! ### Claim C3 -/

/-- Claim C3, counterexample.  `issueRevisedOne` has the single
REVISED_BY successor `AEAREP-2`, and fetching that successor fails with
a non-404 Jira error.  The claim asserts the fetch failure is propagated
as a result distinct from ineligible.  Instead, the resolver returns the
ordinary `"Neither this issue nor linked revisions passed"` ineligible
result for the parent: the status field is the parent's current status
(not `ERROR`) and the message carries no trace of the Jira error. -/
theorem C3_counterexample :
    (check
      (fun k => if k = "AEAREP-1" then FetchOutcome.ok issueRevisedOne
        else FetchOutcome.jiraError 503 "Service Unavailable")
      5 "AEAREP-1" []).1 =
      ⟨false, "Done", "N/A",
        Message.str ("Neither this issue nor linked revisions passed through required statuses (Current MCstatus: Done; Current MCRecommendationV2: N/A)")⟩ ∧
    (check
      (fun k => if k = "AEAREP-1" then FetchOutcome.ok issueRevisedOne
        else FetchOutcome.jiraError 503 "Service Unavailable")
      5 "AEAREP-1" []).1.status ≠ "ERROR" ∧
    pyContains ("Neither this issue nor linked revisions passed through required statuses (Current MCstatus: Done; Current MCRecommendationV2: N/A)")
      ("Jira error") = false ∧
    pyContains ("Neither this issue nor linked revisions passed through required statuses (Current MCstatus: Done; Current MCRecommendationV2: N/A)")
      ("Service Unavailable") = false := by
  decide

/-- Claim C3 (amended): a fetch failure on a REVISED_BY successor is
not propagated.  If issue A never held a required status, its only
successor B fails to fetch with a non-404 Jira error, then `resolve(A)`
returns the plain `"Neither ..."` ineligible result built from A's own
data; the error is swallowed (only the visited set records that B was
attempted). -/
theorem C3_swallowed (fetch : String → FetchOutcome) (fuel : Nat)
    (issue_key : String) (visited : List String) (issue : Issue)
    (linked_key : String) (code : Nat) (text : String)
    (hv : issue_key ∉ visited)
    (hf : fetch issue_key = FetchOutcome.ok issue)
    (hm : matched_statuses issue = [])
    (hl : (get_revised_by_links issue).1 = [linked_key])
    (hlv : linked_key ∉ issue_key :: visited)
    (hlf : fetch linked_key = FetchOutcome.jiraError code text)
    (hc : code ≠ 404) :
    check fetch (fuel + 2) issue_key visited =
      (neitherResult issue, linked_key :: issue_key :: visited) := by
  have hinner : check fetch (fuel + 1) linked_key (issue_key :: visited) =
      (jiraErrorResult text, linked_key :: issue_key :: visited) := by
    show checkF (check fetch fuel) fetch linked_key (issue_key :: visited) = _
    simp [checkF, hlf, hlv, hc]
  show checkF (check fetch (fuel + 1)) fetch issue_key visited = _
  simp [checkF, hf, hv, hm, hl, checkLinks, hinner, linksOutcome, jiraErrorResult]

/-- Witness for `C3_swallowed` at a concrete fetch function. -/
theorem C3_swallowed_witness :
    check
      (fun k => if k = "AEAREP-1" then FetchOutcome.ok issueRevisedOne
        else FetchOutcome.jiraError 503 "Service Unavailable")
      5 "AEAREP-1" [] =
      (neitherResult issueRevisedOne, ["AEAREP-2", "AEAREP-1"]) :=
  C3_swallowed
    (fun k => if k = "AEAREP-1" then FetchOutcome.ok issueRevisedOne
      else FetchOutcome.jiraError 503 "Service Unavailable")
    3 "AEAREP-1" [] issueRevisedOne ("AEAREP-2") 503 "Service Unavailable"
    (by decide) (by decide) (by decide) (by decide) (by decide) (by decide) (by decide)

/-! ### Claim C4 -/

/-- Claim C4: a RELATES link is never followed for recursion and its
endpoints are recorded only in the wrong-links diagnostic of an
ineligible result.  First conjunct: the keys the resolver recurses on
are exactly the inward keys of the links whose inward description
contains `"revised by"`, and the wrong-links list collects exactly the
endpoints of the links classified `relates`; so a relates-classified
link never contributes a recursion target.  Second conjunct: when all
of an issue's links are non-revision (so in particular when they are
all RELATES links, however eligible the related issues may be), the
resolver returns the `"Never passed"` ineligible result whose message
carries the wrong-links note, the related issues are not fetched (the
result is the same for every fetch function agreeing on this key), and
the visited set grows by this key only. -/
theorem C4_relates_never_followed :
    (∀ issue : Issue,
      get_revised_by_links issue =
        (revisedByKeys issue.issuelinks, relatesKeys issue.issuelinks)) ∧
    (∀ (fetch : String → FetchOutcome) (fuel : Nat) (issue_key : String)
        (visited : List String) (issue : Issue),
      issue_key ∉ visited →
      fetch issue_key = FetchOutcome.ok issue →
      matched_statuses issue = [] →
      (∀ link ∈ issue.issuelinks, isRevByLink link = false) →
      check fetch (fuel + 1) issue_key visited =
        (neverResult issue, issue_key :: visited)) := by
  constructor
  · exact get_revised_by_links_eq
  · intro fetch fuel issue_key visited issue hv hf hm hlinks
    have hrev : (get_revised_by_links issue).1 = [] := by
      rw [get_revised_by_links_eq]
      exact revisedByKeys_eq_nil issue.issuelinks hlinks
    show checkF (check fetch fuel) fetch issue_key visited = _
    simp [checkF, hf, hv, hm, hrev]

/-- Witness for `C4_relates_never_followed`: `issueRelatesOnly` has one
RELATES link to `AEAREP-9`, whose issue `issueRelatedPassed` is itself
eligible; the resolver still returns the ineligible `"Never passed"`
result and records `AEAREP-9` only in the note. -/
theorem C4_relates_never_followed_witness :
    check (fetchFromStore [issueRelatesOnly, issueRelatedPassed]) 5 "AEAREP-1" [] =
      (neverResult issueRelatesOnly, ["AEAREP-1"]) ∧
    (check (fetchFromStore [issueRelatesOnly, issueRelatedPassed]) 5 "AEAREP-9" []).1.ready
      = true :=
  ⟨C4_relates_never_followed.2 (fetchFromStore [issueRelatesOnly, issueRelatedPassed])
      4 "AEAREP-1" [] issueRelatesOnly (by decide) (by decide) (by decide)
      (by decide),
   by decide⟩

/-! ### Claim C5 -/

/-- Claim C5: the resolver terminates on every link graph, cyclic ones
included.  First conjunct: re-encountering an identifier in the visited
set returns the terminal already-visited result at once, without
fetching or recursing, for any fuel.  Second conjunct: for any fetch
whose successful keys are covered by a finite list, the result is
independent of the fuel once the fuel exceeds the number of fetchable
keys not yet visited — the recursion depth is bounded by the number of
distinct reachable issues. -/
theorem C5_termination :
    (∀ (fetch : String → FetchOutcome) (fuel : Nat) (issue_key : String)
        (visited : List String), issue_key ∈ visited →
      check fetch (fuel + 1) issue_key visited = (loopResult, visited)) ∧
    (∀ (fetch : String → FetchOutcome) (keys : List String),
      (∀ k issue, fetch k = FetchOutcome.ok issue → k ∈ keys) →
      ∀ (fuel₁ fuel₂ : Nat) (issue_key : String) (visited : List String),
        remainingKeys keys visited < fuel₁ →
        remainingKeys keys visited < fuel₂ →
        check fetch fuel₁ issue_key visited = check fetch fuel₂ issue_key visited) := by
  constructor
  · intro fetch fuel issue_key visited h
    show checkF (check fetch fuel) fetch issue_key visited = _
    simp [checkF, h]
  · exact check_fuel_stable

/-- Witness for `C5_termination` on the two-issue cycle
`AEAREP-1 revised-by AEAREP-2 revised-by AEAREP-1`: the guard fires on a
re-encounter, and the result with fuel 3 equals the result with fuel
100. -/
theorem C5_termination_witness :
    check (fetchFromStore [issueRevisedOne, issueRevisionCycle]) 5 "AEAREP-1"
      ["AEAREP-1"] = (loopResult, ["AEAREP-1"]) ∧
    check (fetchFromStore [issueRevisedOne, issueRevisionCycle]) 3 "AEAREP-1" [] =
      check (fetchFromStore [issueRevisedOne, issueRevisionCycle]) 100 "AEAREP-1" [] :=
  ⟨C5_termination.1 (fetchFromStore [issueRevisedOne, issueRevisionCycle]) 4
      "AEAREP-1" ["AEAREP-1"] (by decide),
   C5_termination.2 (fetchFromStore [issueRevisedOne, issueRevisionCycle])
      ([issueRevisedOne, issueRevisionCycle].map Issue.key)
      (fun k issue h => fetchFromStore_ok_mem _ k issue h)
      3 100 "AEAREP-1" [] (by decide) (by decide)⟩

/-! ### Claim C6 -/

/-- Claim C6: an issue with no required status in its held-status set
returns the never-required ineligible outcome carrying the wrong-links
diagnostic.  First conjunct: with no REVISED_BY successors the resolver
returns `neverResult` (the `"Never passed"` message ending with the
wrong-links note).  Second conjunct: with successors none of which
resolves to an eligible result (the link loop returns `none`), it
returns `neitherResult` (the `"Neither ..."` message, same
diagnostic). -/
theorem C6_never_required :
    (∀ (fetch : String → FetchOutcome) (fuel : Nat) (issue_key : String)
        (visited : List String) (issue : Issue),
      issue_key ∉ visited →
      fetch issue_key = FetchOutcome.ok issue →
      matched_statuses issue = [] →
      (get_revised_by_links issue).1 = [] →
      check fetch (fuel + 1) issue_key visited =
        (neverResult issue, issue_key :: visited)) ∧
    (∀ (fetch : String → FetchOutcome) (fuel : Nat) (issue_key : String)
        (visited v2 : List String) (issue : Issue),
      issue_key ∉ visited →
      fetch issue_key = FetchOutcome.ok issue →
      matched_statuses issue = [] →
      (get_revised_by_links issue).1 ≠ [] →
      checkLinks (check fetch fuel) (get_revised_by_links issue).1
        (issue_key :: visited) = (none, v2) →
      check fetch (fuel + 1) issue_key visited = (neitherResult issue, v2)) := by
  constructor
  · intro fetch fuel issue_key visited issue hv hf hm hrev
    show checkF (check fetch fuel) fetch issue_key visited = _
    simp [checkF, hf, hv, hm, hrev]
  · intro fetch fuel issue_key visited v2 issue hv hf hm hrev hnone
    show checkF (check fetch fuel) fetch issue_key visited = _
    simp [checkF, hf, hv, hm, hrev, hnone, linksOutcome]

/-- Witness for `C6_never_required`: an issue with no links and no
matching status yields `neverResult`; the cyclic pair (where the
successor is also ineligible) yields `neitherResult`. -/
theorem C6_never_required_witness :
    check (fetchFromStore [issueRelatesOnly]) 5 "AEAREP-1" [] =
      (neverResult issueRelatesOnly, ["AEAREP-1"]) ∧
    check (fetchFromStore [issueRevisedOne, issueRevisionCycle]) 5 "AEAREP-1" [] =
      (neitherResult issueRevisedOne, ["AEAREP-2", "AEAREP-1"]) :=
  ⟨C6_never_required.1 (fetchFromStore [issueRelatesOnly]) 4 "AEAREP-1" []
      issueRelatesOnly (by decide) (by decide) (by decide) (by decide),
   C6_never_required.2 (fetchFromStore [issueRevisedOne, issueRevisionCycle]) 4
      "AEAREP-1" [] ["AEAREP-2", "AEAREP-1"] issueRevisedOne
      (by decide) (by decide) (by decide) (by decide) (by decide)⟩

/-! ### Claim C7 -/

/-- Claim C7: each identifier is visited at most once per resolution.
First conjunct: the visited list stays duplicate-free through any call
(an identifier is never added twice).  Second conjunct: on a
re-encounter the guard cuts the call off before any fetch — the result
does not depend on the fetch function at all.  Third conjunct: the
visited set is threaded, never reconstructed — every call returns a
superset of the visited set it received.  Fourth conjunct: a fresh
identifier is added to the visited set it returns. -/
theorem C7_visited_once :
    (∀ (fetch : String → FetchOutcome) (fuel : Nat) (issue_key : String)
        (visited : List String), visited.Nodup →
      ((check fetch fuel issue_key visited).2).Nodup) ∧
    (∀ (fetch fetch' : String → FetchOutcome) (fuel : Nat) (issue_key : String)
        (visited : List String), issue_key ∈ visited →
      check fetch (fuel + 1) issue_key visited = (loopResult, visited) ∧
      check fetch (fuel + 1) issue_key visited =
        check fetch' (fuel + 1) issue_key visited) ∧
    (∀ (fetch : String → FetchOutcome) (fuel : Nat) (issue_key : String)
        (visited : List String),
      visited ⊆ (check fetch fuel issue_key visited).2) ∧
    (∀ (fetch : String → FetchOutcome) (fuel : Nat) (issue_key : String)
        (visited : List String), issue_key ∉ visited →
      issue_key ∈ (check fetch (fuel + 1) issue_key visited).2) := by
  refine ⟨check_nodup, ?_, check_visited_sub, ?_⟩
  · intro fetch fetch' fuel issue_key visited h
    constructor
    · show checkF (check fetch fuel) fetch issue_key visited = _
      simp [checkF, h]
    · show checkF (check fetch fuel) fetch issue_key visited =
        checkF (check fetch' fuel) fetch' issue_key visited
      simp [checkF, h]
  · intro fetch fuel issue_key visited hv
    show issue_key ∈ (checkF (check fetch fuel) fetch issue_key visited).2
    have hmem : issue_key ∈ issue_key :: visited := List.mem_cons_self _ _
    simp only [checkF]
    split
    · exact absurd (by assumption) hv
    · split
      · split
        · exact hmem
        · split
          · rename_i issue heq hmm hne
            exact linksOutcome_sub issue
              (checkLinks (check fetch fuel) (get_revised_by_links issue).1
                (issue_key :: visited))
              (checkLinks_visited_sub (check fetch fuel)
                (fun k' v' => check_visited_sub fetch fuel k' v')
                (get_revised_by_links issue).1 (issue_key :: visited)) hmem
          · exact hmem
      · split
        · exact hmem
        · exact hmem
      · exact hmem

/-- Witness for `C7_visited_once` on the cyclic store. -/
theorem C7_visited_once_witness :
    ((check (fetchFromStore [issueRevisedOne, issueRevisionCycle]) 5 "AEAREP-1" []).2).Nodup ∧
    check (fetchFromStore [issueRevisedOne, issueRevisionCycle]) 5 "AEAREP-2"
      ["AEAREP-2"] = (loopResult, ["AEAREP-2"]) ∧
    ["AEAREP-9"] ⊆ (check (fetchFromStore [issueRevisedOne, issueRevisionCycle]) 5
      "AEAREP-1" ["AEAREP-9"]).2 ∧
    "AEAREP-1" ∈ (check (fetchFromStore [issueRevisedOne, issueRevisionCycle]) 5
      "AEAREP-1" []).2 :=
  ⟨C7_visited_once.1 (fetchFromStore [issueRevisedOne, issueRevisionCycle]) 5
      "AEAREP-1" [] (by decide),
   (C7_visited_once.2.1 (fetchFromStore [issueRevisedOne, issueRevisionCycle])
      (fetchFromStore []) 4 "AEAREP-2" ["AEAREP-2"] (by decide)).1,
   C7_visited_once.2.2.1 (fetchFromStore [issueRevisedOne, issueRevisionCycle]) 5
      "AEAREP-1" ["AEAREP-9"],
   C7_visited_once.2.2.2 (fetchFromStore [issueRevisedOne, issueRevisionCycle]) 4
      "AEAREP-1" [] (by decide)⟩

/-! ### Claim C8 -/

/-- Claim C8: a failing root fetch is classified into exactly two
cases — `NOT_FOUND` for a 404 `JIRAError` and `ERROR` for any other
retrieval failure (other Jira errors and generic exceptions alike) —
and these results are distinct from the ineligible outcomes.  The first
three conjuncts give the exact results of the three failure branches.
The fourth pins the first character of each failure message
(`I`/`J`/`E`).  The fifth shows that every ineligible result of a
successfully fetched root has a message starting with `N` (the
`"Never"`/`"Neither"` family), so failure results are distinguishable
from ineligible ones by their messages (and by the `NOT_FOUND`/`ERROR`
status markers). -/
theorem C8_fetch_failure_classification (fetch : String → FetchOutcome)
    (fuel : Nat) (issue_key : String) (visited : List String)
    (hv : issue_key ∉ visited) :
    (∀ text, fetch issue_key = FetchOutcome.jiraError 404 text →
      check fetch (fuel + 1) issue_key visited =
        (notFoundResult, issue_key :: visited)) ∧
    (∀ code text, fetch issue_key = FetchOutcome.jiraError code text → code ≠ 404 →
      check fetch (fuel + 1) issue_key visited =
        (jiraErrorResult text, issue_key :: visited)) ∧
    (∀ msg, fetch issue_key = FetchOutcome.exn msg →
      check fetch (fuel + 1) issue_key visited =
        (exnResult msg, issue_key :: visited)) ∧
    (msgHead notFoundResult.message = some 'I' ∧
     (∀ text, msgHead (jiraErrorResult text).message = some 'J') ∧
     (∀ msg, msgHead (exnResult msg).message = some 'E')) ∧
    (∀ issue r v2, fetch issue_key = FetchOutcome.ok issue →
      check fetch (fuel + 1) issue_key visited = (r, v2) → r.ready = false →
      msgHead r.message = some 'N') := by
  refine ⟨?_, ?_, ?_, ⟨rfl, ?_, ?_⟩, ?_⟩
  · intro text hf
    show checkF (check fetch fuel) fetch issue_key visited = _
    simp [checkF, hf, hv]
  · intro code text hf hc
    show checkF (check fetch fuel) fetch issue_key visited = _
    simp [checkF, hf, hv, hc]
  · intro msg hf
    show checkF (check fetch fuel) fetch issue_key visited = _
    simp [checkF, hf, hv]
  · intro text
    exact strHeadAppend ("Jira error: ") text 'J' rfl
  · intro msg
    exact strHeadAppend ("Error retrieving issue: ") msg 'E' rfl
  · intro issue r v2 hok hres hrf
    rw [show check fetch (fuel + 1) issue_key visited =
      checkF (check fetch fuel) fetch issue_key visited from rfl] at hres
    simp only [checkF, hok] at hres
    rw [if_neg hv] at hres
    by_cases hm : matched_statuses issue ≠ []
    · rw [if_pos hm] at hres
      have hr : eligibleResult issue = r := congrArg Prod.fst hres
      rw [← hr] at hrf
      simp [eligibleResult] at hrf
    · rw [if_neg hm] at hres
      by_cases hl : (get_revised_by_links issue).1 ≠ []
      · rw [if_pos hl] at hres
        rcases hcl : checkLinks (check fetch fuel) (get_revised_by_links issue).1
            (issue_key :: visited) with ⟨or, vv⟩
        rw [hcl] at hres
        cases or with
        | some r0 =>
          have hr : r0 = r := congrArg Prod.fst hres
          have := checkLinks_some_ready (check fetch fuel) _ _ _ _ hcl
          rw [hr] at this
          rw [this] at hrf
          cases hrf
        | none =>
          have hr : neitherResult issue = r := congrArg Prod.fst hres
          rw [← hr]
          exact msgHead_neither issue
      · rw [if_neg hl] at hres
        have hr : neverResult issue = r := congrArg Prod.fst hres
        rw [← hr]
        exact msgHead_never issue

/-- Witness for `C8_fetch_failure_classification` at `fetchMixed`. -/
theorem C8_fetch_failure_classification_witness :
    check fetchMixed 3 "AEAREP-404" [] = (notFoundResult, ["AEAREP-404"]) ∧
    check fetchMixed 3 "AEAREP-500" [] = (jiraErrorResult ("auth failure"), ["AEAREP-500"]) ∧
    check fetchMixed 3 "AEAREP-900" [] = (exnResult ("network timeout"), ["AEAREP-900"]) :=
  ⟨(C8_fetch_failure_classification fetchMixed 2 "AEAREP-404" [] (by decide)).1
      "not found" (by decide),
   (C8_fetch_failure_classification fetchMixed 2 "AEAREP-500" [] (by decide)).2.1
      500 "auth failure" (by decide) (by decide),
   (C8_fetch_failure_classification fetchMixed 2 "AEAREP-900" [] (by decide)).2.2.1
      "network timeout" (by decide)⟩

/-! ### Claim C9 -/

theorem all_ready_foldl (results : List (String × CheckResult)) :
    ∀ b : Bool, results.foldl (fun acc r => acc && r.2.ready) b =
      (b && results.all (fun r => r.2.ready)) := by
  induction results with
  | nil => intro b; simp
  | cons x xs ih =>
    intro b
    rw [List.foldl_cons, ih]
    simp [Bool.and_assoc]

/-- Claim C9: the batch driver resolves each root issue independently —
each with its own fresh empty visited set — collects per-issue results,
and exits 0 exactly when every issue's result is ready.  The first
conjunct exposes the independence: the result list is a `map` over the
keys, each invoking `check` on the normalized key with a fresh `[]`
visited set.  The second conjunct characterizes the exit code. -/
theorem C9_batch_driver :
    (∀ (fetch : String → FetchOutcome) (fuel : Nat) (issue_keys : List String),
      mainChecks fetch fuel issue_keys =
        issue_keys.map (fun issue_key =>
          (normalizeKey issue_key, (check fetch fuel (normalizeKey issue_key) []).1))) ∧
    (∀ (fetch : String → FetchOutcome) (fuel : Nat) (issue_keys : List String),
      mainExitCode fetch fuel issue_keys = 0 ↔
        ∀ p ∈ mainChecks fetch fuel issue_keys, p.2.ready = true) := by
  constructor
  · intro fetch fuel issue_keys
    rfl
  · intro fetch fuel issue_keys
    unfold mainExitCode
    have hall : all_ready (mainChecks fetch fuel issue_keys) =
        (mainChecks fetch fuel issue_keys).all (fun r => r.2.ready) := by
      unfold all_ready
      rw [all_ready_foldl]
      simp
    rw [hall]
    by_cases h : (mainChecks fetch fuel issue_keys).all (fun r => r.2.ready) = true
    · simp only [h, if_true, if_pos]
      constructor
      · intro _ p hp
        exact List.all_eq_true.mp h p hp
      · intro _
        trivial
    · rw [Bool.not_eq_true] at h
      simp only [h, Bool.false_eq_true, if_false]
      constructor
      · intro h1
        exact absurd h1 one_ne_zero
      · intro hforall
        exfalso
        have : (mainChecks fetch fuel issue_keys).all (fun r => r.2.ready) = true :=
          List.all_eq_true.mpr (fun p hp => hforall p hp)
        rw [h] at this
        cases this

/-- Witness for `C9_batch_driver`: a batch of one eligible issue exits
0; adding an unknown issue makes it exit 1. -/
theorem C9_batch_driver_witness :
    mainExitCode (fetchFromStore [issueDonePassed]) 5 ["aearep-1"] = 0 ∧
    mainExitCode (fetchFromStore [issueDonePassed]) 5 ["aearep-1", "aearep-77"] = 1 :=
  ⟨(C9_batch_driver.2 (fetchFromStore [issueDonePassed]) 5 ["aearep-1"]).mpr
      (by decide),
   by decide⟩

/-! ### Claim C10 -/

theorem pyReplaceFirst_of_startsWith (k pat rep : String)
    (hne : pat.data ≠ [])
    (hp : pat.data.isPrefixOf k.data = true) :
    (pyReplaceFirst k pat rep).data = rep.data ++ k.data.drop pat.data.length := by
  show replaceFirstList pat.data rep.data k.data = _
  cases hk : k.data with
  | nil =>
    rw [hk] at hp
    cases hpat : pat.data with
    | nil => exact absurd hpat hne
    | cons c cs => rw [hpat] at hp; simp [List.isPrefixOf] at hp
  | cons c rest =>
    rw [hk] at hp
    rw [replaceFirstList, if_pos hp]

/-- Claim C10: the batch driver normalizes every command-line issue key
before resolving it.  First conjunct: a key whose uppercasing is purely
numeric becomes `AEAREP-` followed by the uppercased digits.  Second: a
key whose uppercasing starts with `AEAREP` but not `AEAREP-` (and is
not numeric) has the dash inserted after the first `AEAREP`.  Third:
all other keys are only uppercased.  Fourth: the resolver is invoked,
and results are keyed, only on the normalized key — the raw argument is
used solely as input to `normalizeKey`. -/
theorem C10_key_normalization :
    (∀ s : String, pyIsDigit (pyUpper s) = true →
      normalizeKey s = "AEAREP-" ++ pyUpper s) ∧
    (∀ s : String, pyIsDigit (pyUpper s) = false →
      pyStartsWith (pyUpper s) "AEAREP-" = false →
      pyStartsWith (pyUpper s) "AEAREP" = true →
      (normalizeKey s).data = "AEAREP-".data ++ (pyUpper s).data.drop 6) ∧
    (∀ s : String, pyIsDigit (pyUpper s) = false →
      (pyStartsWith (pyUpper s) "AEAREP-" = true ∨
       pyStartsWith (pyUpper s) "AEAREP" = false) →
      normalizeKey s = pyUpper s) ∧
    (∀ (fetch : String → FetchOutcome) (fuel : Nat) (issue_keys : List String),
      mainChecks fetch fuel issue_keys =
        issue_keys.map (fun issue_key =>
          (normalizeKey issue_key, (check fetch fuel (normalizeKey issue_key) []).1))) := by
  refine ⟨?_, ?_, ?_, fun fetch fuel issue_keys => rfl⟩
  · intro s h
    simp [normalizeKey, h]
  · intro s h0 h1 h2
    have hbranch : normalizeKey s = pyReplaceFirst (pyUpper s) "AEAREP" "AEAREP-" := by
      simp [normalizeKey, h0, h1, h2]
    rw [hbranch]
    have h6 : ("AEAREP".data).length = 6 := rfl
    rw [pyReplaceFirst_of_startsWith (pyUpper s) "AEAREP" "AEAREP-"
      (by decide) h2, h6]
  · intro s h0 hcase
    cases hcase with
    | inl h1 => simp [normalizeKey, h0, h1]
    | inr h2 => simp [normalizeKey, h0, h2]

/-- Witness for `C10_key_normalization` on the three normalization
shapes. -/
theorem C10_key_normalization_witness :
    normalizeKey ("123") = "AEAREP-" ++ pyUpper ("123") ∧
    (normalizeKey ("aearep123")).data = "AEAREP-".data ++ (pyUpper ("aearep123")).data.drop 6 ∧
    normalizeKey ("aearep-123") = pyUpper ("aearep-123") :=
  ⟨C10_key_normalization.1 "123" (by decide),
   C10_key_normalization.2.1 "aearep123" (by decide) (by decide) (by decide),
   C10_key_normalization.2.2.1 "aearep-123" (by decide) (Or.inl (by decide))⟩

end JiraPurge
